import Mathlib

/-!
Shallow embedding of the `llm-deploy-endpoint` deployment pipeline
(final variant of `api/request.js`): an edge handler that validates a
task request, generates an HTML artifact and a README via a text
provider (with local fallbacks), publishes both files to a GitHub
repository, enables static hosting, resolves the branch head, and
notifies an evaluator callback with bounded exponential-backoff retries.

External HTTP interactions are modelled by explicit result values
(a `World` record): each outbound call's observable outcome is a
constructor of a small inductive mirroring exactly the distinctions the
source code makes on the response (`r.ok`, `r.status`, parsed JSON
fields).  The handler is a pure function from environment, world and
request to the single JSON response plus the ordered trace of outbound
calls and sleeps it performs.
-/

namespace LlmDeploy

/-! ## JavaScript-style truthiness and defaulting helpers -/

/-- Truthiness of an optional string binding: `undefined` and `""` are falsy
(JS `!s`). -/
def jsTruthyStr : Option String → Bool
  | none => false
  | some s => s ≠ ""

/-- Truthiness of an optional numeric binding: `undefined` and `0` are falsy
(JS `!n`). -/
def jsTruthyInt : Option Int → Bool
  | none => false
  | some n => n ≠ 0

/-- An absent string binding is falsy. -/
@[simp]
theorem jsTruthyStr_none : jsTruthyStr none = false := rfl

/-- An absent numeric binding is falsy. -/
@[simp]
theorem jsTruthyInt_none : jsTruthyInt none = false := rfl

/-- JS `a || b` for an optional string `a` against a default `b`:
`undefined` and `""` fall through to `b`. -/
def jsOrStr (a : Option String) (b : String) : String :=
  match a with
  | none => b
  | some s => if s = "" then b else s

/-- JS `a || null` normalisation of an optional string: `""` becomes absent. -/
def jsOrNull (a : Option String) : Option String :=
  match a with
  | none => none
  | some s => if s = "" then none else some s

/-! ## Character-list implementations of the JS string operations used by
the source (`replace` with a global literal pattern, `trim`,
`startsWith`, `endsWith`, `includes`).  They are structurally recursive
so that every definition evaluates by kernel reduction. -/

/-- Does `hay` begin with `needle`? -/
def leadsWith : List Char → List Char → Bool
  | [], _ => true
  | _ :: _, [] => false
  | c :: cs, d :: ds => c == d && leadsWith cs ds

/-- Does `needle` occur anywhere in `hay`? -/
def occursIn (needle : List Char) : List Char → Bool
  | [] => leadsWith needle []
  | c :: t => leadsWith needle (c :: t) || occursIn needle t

/-- One left-to-right global-replace pass: at each position, if `needle`
matches (and is non-empty), emit `repl` and skip the match, else advance
one character.  `fuel` bounds the recursion; callers pass the hay length,
which suffices because every step consumes at least one character. -/
def replaceAllGo (needle repl : List Char) : Nat → List Char → List Char
  | _, [] => []
  | 0, hay => hay
  | fuel + 1, c :: t =>
      if needle ≠ [] && leadsWith needle (c :: t) then
        repl ++ replaceAllGo needle repl fuel (List.drop (needle.length - 1) t)
      else
        c :: replaceAllGo needle repl fuel t

/-- JS `s.replace(new RegExp(escape(needle), "g"), repl)` for a literal
needle. -/
def jsReplaceAll (s needle repl : String) : String :=
  ⟨replaceAllGo needle.data repl.data s.data.length s.data⟩

/-- ASCII whitespace recognised by `trim` (the source never feeds it
non-ASCII whitespace-edged text). -/
def isJsSpace (c : Char) : Bool :=
  c == ' ' || c == '\t' || c == '\n' || c == '\r'

/-- Drop leading whitespace. -/
def trimLeading : List Char → List Char
  | [] => []
  | c :: t => if isJsSpace c then trimLeading t else c :: t

/-- JS `s.trim()`. -/
def jsTrim (s : String) : String :=
  ⟨(trimLeading (trimLeading s.data).reverse).reverse⟩

/-- JS `s.startsWith(p)`. -/
def jsStartsWith (s p : String) : Bool := leadsWith p.data s.data

/-- JS `s.endsWith(p)`. -/
def jsEndsWith (s p : String) : Bool :=
  leadsWith p.data.reverse s.data.reverse

/-- Substring test, JS `String.prototype.includes`. -/
def containsSubstr (s sub : String) : Bool :=
  occursIn sub.data s.data

/-! ## Base64 (`toB64 = btoa(unescape(encodeURIComponent(s)))`):
standard base64 over the UTF-8 bytes of the string. -/

/-- The 64 base64 digits in order. -/
def b64Alphabet : List Char :=
  "ABCDEFGHIJKLMNOPQRSTUVWXYZabcdefghijklmnopqrstuvwxyz0123456789+/".toList

/-- Base64 digit for a 6-bit value. -/
def b64Digit (n : Nat) : Char := b64Alphabet.getD n '='

/-- Encode a byte list, three bytes to four digits, padded with `=`. -/
def b64Chunks : List Nat → String
  | [] => ""
  | [a] =>
      String.mk [b64Digit (a / 4), b64Digit (a % 4 * 16)] ++ "=="
  | [a, b] =>
      String.mk [b64Digit (a / 4), b64Digit (a % 4 * 16 + b / 16),
                 b64Digit (b % 16 * 4)] ++ "="
  | a :: b :: c :: rest =>
      String.mk [b64Digit (a / 4), b64Digit (a % 4 * 16 + b / 16),
                 b64Digit (b % 16 * 4 + c / 64), b64Digit (c % 64)]
        ++ b64Chunks rest

/-- `toB64(s)`: base64 of the UTF-8 encoding of `s`. -/
def toB64 (s : String) : String :=
  b64Chunks (s.toUTF8.data.toList.map (fun byte => byte.toNat))

/-! ## Data model: environment, request body, request -/

/-- Process-wide configuration (`process.env.*`); `none` models an unset
variable. -/
structure Env where
  GITHUB_USERNAME : Option String
  GITHUB_TOKEN : Option String
  STUDENT_SECRET : Option String
  ANTHROPIC_API_KEY : Option String
deriving DecidableEq, Repr

/-- An attachment entry `{name, url}` of the request body. -/
structure Attachment where
  name : Option String
  url : Option String
deriving DecidableEq, Repr

/-- Parsed JSON request body.  Every field is optional because JSON bodies
carry arbitrary subsets; the destructuring defaults (`checks = []`,
`attachments = []`) are applied where the handler reads them. -/
structure ReqBody where
  email : Option String := none
  secret : Option String := none
  task : Option String := none
  round : Option Int := none
  nonce : Option String := none
  brief : Option String := none
  checks : Option (List String) := none
  evaluation_url : Option String := none
  attachments : Option (List Attachment) := none
deriving DecidableEq, Repr

/-- The empty object `{}` produced by `req.json().catch(() => ({}))` when
the body is not parseable JSON. -/
def emptyBody : ReqBody := {}

/-- An inbound HTTP request: method plus parse outcome of the JSON body
(`none` = the body was not parseable JSON, so the catch yields `{}`). -/
structure Request where
  method : String
  body : Option ReqBody
deriving DecidableEq, Repr

/-! ## Artifact Generator (`anthropicHTML`, `fallbackHTML`,
`anthropicREADME`) -/

/-- Observable outcome of one generation-provider call.  `netError` is a
rejected fetch (network failure / timeout); `httpError` is a response with
`!r.ok`; `ok` carries `data?.content?.[0]?.text` (absent when the response
shape lacks it). -/
inductive ProviderResult
  | netError (msg : String)
  | httpError (status : Nat) (statusText : String) (snippet : String)
  | ok (text : Option String)
deriving DecidableEq, Repr

/-- Defensive stripping of fenced-code decoration for HTML output:
`code.replace(/```html\n?/g, "").replace(/```\n?/g, "").trim()` (the
optional trailing newline of the regex is handled by replacing the
newline-suffixed form first). -/
def stripFences (s : String) : String :=
  jsTrim (jsReplaceAll (jsReplaceAll (jsReplaceAll (jsReplaceAll s
    "```html\n" "") "```html" "") "```\n" "") "```" "")

/-- Defensive stripping of fenced-code decoration for Markdown output:
`md.replace(/```markdown\n?/g, "").replace(/```\n?/g, "").trim()`. -/
def stripFencesMd (s : String) : String :=
  jsTrim (jsReplaceAll (jsReplaceAll (jsReplaceAll (jsReplaceAll s
    "```markdown\n" "") "```markdown" "") "```\n" "") "```" "")

/-- `anthropicHTML`: extract the text, strip fences, and require the
document to start with `<!DOCTYPE html>` and end with `</html>`; any
provider failure or shape violation is an error.  (The prompt built from
brief/attachments/checks only feeds the provider and does not affect
control flow, so it is not modelled.) -/
def anthropicHTML (p : ProviderResult) : Except String String :=
  match p with
  | .netError m => .error m
  | .httpError st txt snip =>
      .error ("Anthropic " ++ toString st ++ " " ++ txt ++ ": " ++ snip)
  | .ok t =>
      let code := stripFences (t.getD "")
      if jsStartsWith code "<!DOCTYPE html>" && jsEndsWith code "</html>" then
        .ok code
      else
        .error "Anthropic returned non-HTML or partial HTML"

/-- HTML-escaping of `<` and `>` used by the fallback document:
`brief.replace(/[<>]/g, m => ({'<':'&lt;','>':'&gt;'}[m]))`. -/
def escapeAngles (s : String) : String :=
  jsReplaceAll (jsReplaceAll s "<" "&lt;") ">" "&gt;"

/-- Literal prefix of the fallback document, up to the escaped brief. -/
def fallbackPre : String :=
  "<!DOCTYPE html>\n<html lang=\"en\">\n<head>\n<meta charset=\"utf-8\"/><meta name=\"viewport\" content=\"width=device-width,initial-scale=1\"/>\n<title>Fallback App</title>\n<link rel=\"stylesheet\" href=\"https://cdnjs.cloudflare.com/ajax/libs/bootstrap/5.3.2/css/bootstrap.min.css\"/>\n<style>body\x7bpadding:2rem\x7d</style>\n</head>\n<body class=\"container\">\n  <h1 class=\"mb-3\">Fallback App</h1>\n  <p class=\"text-muted\">LLM generation failed; using fallback to continue deployment.</p>\n  <div class=\"card\"><div class=\"card-body\">\n    <h5 class=\"card-title\">Brief</h5>\n    <pre style=\"white-space:pre-wrap\">"

/-- Literal suffix of the fallback document, after the escaped brief. -/
def fallbackPost : String :=
  "</pre>\n  </div></div>\n<script src=\"https://cdnjs.cloudflare.com/ajax/libs/bootstrap/5.3.2/js/bootstrap.bundle.min.js\"></script>\n</body></html>"

/-- `fallbackHTML(brief)`: the locally synthesized fallback document
embedding the angle-escaped brief. -/
def fallbackHTML (brief : String) : String :=
  fallbackPre ++ escapeAngles brief ++ fallbackPost

/-- `anthropicREADME`: extract the text and strip Markdown fences; there is
no shape validation for the companion document. -/
def anthropicREADME (p : ProviderResult) : Except String String :=
  match p with
  | .netError m => .error m
  | .httpError st txt snip =>
      .error ("Anthropic README " ++ toString st ++ " " ++ txt ++ ": " ++ snip)
  | .ok t => .ok (stripFencesMd (t.getD ""))

/-- The fallback README synthesized in the handler when the companion
generation fails. -/
def fallbackREADME (task brief : String) : String :=
  "# " ++ task ++ "\n\nAuto-generated fallback README.\n\n## Brief\n\n" ++ brief
    ++ "\n\n## License\n\nMIT"

/-! ## Repository Publisher (`ghCreateRepo`, `ghGetSha`, `ghPutFile`,
`ghEnablePages`) and Commit Resolver (`ghLatestCommit`) -/

/-- Result returned to the handler by `ghCreateRepo`: the repository URL
reported (or synthesized) and whether the repository already existed. -/
structure RepoInfo where
  html_url : Option String
  already : Bool
deriving DecidableEq, Repr

/-- Observable outcome of the create-repository call: success with the
parsed `html_url`, or a non-ok response with status, parsed error
messages (`j.errors[*].message`), parsed `j.message`, and `statusText`. -/
inductive CreateRepoResult
  | ok (html_url : Option String)
  | err (status : Nat) (errors : List String) (message : Option String)
        (statusText : String)
deriving DecidableEq, Repr

/-- The URL synthesized from the owning account and the task identifier:
`https://github.com/<owner>/<name>`. -/
def repoUrlOf (owner name : String) : String :=
  "https://github.com/" ++ owner ++ "/" ++ name

/-- The already-exists test on a failed create-repository response:
`r.status === 422 && (j?.errors || []).some(e => e?.message?.includes("name already exists"))`. -/
def isAlreadyExists (status : Nat) (errors : List String) : Bool :=
  status == 422 && errors.any (fun e => containsSubstr e "name already exists")

/-- `ghCreateRepo(name)`: on success return the parsed body; on a 422
whose errors mention "name already exists", synthesize
`https://github.com/<owner>/<name>` and report `exists=true`; any other
failure throws `GitHub create repo <status>: <message || statusText>`. -/
def ghCreateRepo (owner name : String) (r : CreateRepoResult) :
    Except String RepoInfo :=
  match r with
  | .ok u => .ok ⟨u, false⟩
  | .err st errs msg txt =>
      if isAlreadyExists st errs then
        .ok ⟨some (repoUrlOf owner name), true⟩
      else
        .error ("GitHub create repo " ++ toString st ++ ": " ++ jsOrStr msg txt)

/-- Observable outcome of the get-file-metadata call: a 404 (file not
found), some other non-ok response, or a parsed body carrying `j.sha`. -/
inductive GetShaResult
  | status404
  | fail (status : Nat) (statusText : String)
  | ok (sha : Option String)
deriving DecidableEq, Repr

/-- `ghGetSha(owner, repo, path)`: 404 means no stored revision marker
(`null`); any other non-ok response throws; otherwise return
`j.sha || null`. -/
def ghGetSha (r : GetShaResult) : Except String (Option String) :=
  match r with
  | .status404 => .ok none
  | .fail st txt => .error ("GitHub get sha " ++ toString st ++ " " ++ txt)
  | .ok sha => .ok (jsOrNull sha)

/-- The JSON body of a put-file call: commit message, base64 content, and
the `sha` property which is present exactly when a truthy marker was
passed (`...(sha ? { sha } : {})`). -/
structure PutPayload where
  path : String
  message : String
  content : String
  sha : Option String
deriving DecidableEq, Repr

/-- Build the put-file payload from the looked-up marker. -/
def mkPutPayload (path content message : String) (sha : Option String) :
    PutPayload :=
  ⟨path, message, content, jsOrNull sha⟩

/-- Observable outcome of a put-file call. -/
inductive PutResult
  | ok
  | fail (status : Nat) (message : Option String) (statusText : String)
deriving DecidableEq, Repr

/-- `ghPutFile(owner, repo, path, ...)`: a non-ok response throws
`GitHub PUT <path> <status>: <message || statusText>`. -/
def ghPutFile (path : String) (r : PutResult) : Except String Unit :=
  match r with
  | .ok => .ok ()
  | .fail st msg txt =>
      .error ("GitHub PUT " ++ path ++ " " ++ toString st ++ ": " ++ jsOrStr msg txt)

/-- Observable outcome of the enable-pages call: `r.ok`, or a non-ok
response with its status (409 = already configured). -/
inductive PagesResult
  | ok
  | errStatus (status : Nat) (message : Option String) (statusText : String)
deriving DecidableEq, Repr

/-- `ghEnablePages(owner, repo)`: throws only when the response is non-ok
AND its status is not 409; in every non-throwing case returns
`https://<owner>.github.io/<repo>/`. -/
def ghEnablePages (owner repo : String) (r : PagesResult) :
    Except String String :=
  match r with
  | .ok => .ok ("https://" ++ owner ++ ".github.io/" ++ repo ++ "/")
  | .errStatus st msg txt =>
      if st ≠ 409 then
        .error ("GitHub enable pages " ++ toString st ++ ": " ++ jsOrStr msg txt)
      else
        .ok ("https://" ++ owner ++ ".github.io/" ++ repo ++ "/")

/-- Observable outcome of the get-branch-head call, carrying
`j?.object?.sha` on success. -/
inductive RefResult
  | ok (sha : Option String)
  | fail (status : Nat) (statusText : String)
deriving DecidableEq, Repr

/-- `ghLatestCommit(owner, repo, branch)`: non-ok throws; otherwise return
`j?.object?.sha || "unknown"`. -/
def ghLatestCommit (r : RefResult) : Except String String :=
  match r with
  | .ok sha => .ok (jsOrStr sha "unknown")
  | .fail st txt => .error ("GitHub ref " ++ toString st ++ " " ++ txt)

/-! ## Evaluation Notifier (`notify`) -/

/-- One entry of the ordered trace of outbound calls and sleeps performed
by a run. -/
inductive Call
  | anthropicCall (kind : String)
  | createRepoCall
  | getShaCall (path : String)
  | putCall (p : PutPayload)
  | pagesCall
  | refCall
  | notifyAttempt (i : Nat)
  | sleep (ms : Nat)
deriving DecidableEq, Repr

/-- The retry loop of `notify` starting at attempt index `i` with `fuel`
attempts remaining: each attempt posts the payload; a response with
`res.ok` returns `true` immediately; otherwise the loop sleeps
`2^i * 1000` milliseconds (i.e. `2^i` seconds) and continues; exhaustion
returns `false`.  `outcome i` is the `res.ok` of attempt `i`. -/
def notifyGo (outcome : Nat → Bool) : Nat → Nat → Bool × List Call
  | _, 0 => (false, [])
  | i, fuel + 1 =>
      if outcome i then (true, [.notifyAttempt i])
      else
        let rest := notifyGo outcome (i + 1) fuel
        (rest.1, .notifyAttempt i :: .sleep (2 ^ i * 1000) :: rest.2)

/-- `notify(url, payload, maxRetries = 5)`: bounded retries with
exponential backoff, returning whether delivery succeeded together with
the trace of attempts and sleeps. -/
def notify (outcome : Nat → Bool) (maxRetries : Nat := 5) : Bool × List Call :=
  notifyGo outcome 0 maxRetries

/-! ## Orchestrator (`handler`) -/

/-- Body of the single JSON response of a run. -/
inductive RespBody
  | err (error : String)
  | ok (repo_url commit_sha pages_url : String)
deriving DecidableEq, Repr

/-- An HTTP response: status code plus JSON body. -/
structure Response where
  status : Nat
  body : RespBody
deriving DecidableEq, Repr

/-- Observable outcomes of every outbound call a run may perform, in
program order.  `callback i` is the `res.ok` of the i-th notify attempt. -/
structure World where
  htmlGen : ProviderResult
  readmeGen : ProviderResult
  createRepo : CreateRepoResult
  shaIndex : GetShaResult
  putIndex : PutResult
  shaReadme : GetShaResult
  putReadme : PutResult
  pages : PagesResult
  ref : RefResult
  callback : Nat → Bool

/-- The commit message for a path: `round === 1 ? "Add <path>" :
"Update <path> - Round <round>"`. -/
def commitMessage (path : String) (round : Option Int) : String :=
  if round = some 1 then "Add " ++ path
  else "Update " ++ path ++ " - Round " ++ toString (round.getD 0)

/-- Step 1 of the handler: the primary document actually used — the
generated one on success, the fallback on any generation error
(`try { html = await anthropicHTML(...) } catch { html = fallbackHTML(brief) }`). -/
def chosenHTML (p : ProviderResult) (brief : String) : String :=
  match anthropicHTML p with
  | .ok h => h
  | .error _ => fallbackHTML brief

/-- Step 2 of the handler: the companion document actually used. -/
def chosenREADME (p : ProviderResult) (task brief : String) : String :=
  match anthropicREADME p with
  | .ok md => md
  | .error _ => fallbackREADME task brief

/-- The try-block of the handler, steps 1-7: generate HTML (fallback on
any generation error), generate README (fallback on any error),
create/reuse repository, push `index.html` then `README.md` (each with a
marker lookup first), enable pages, resolve the branch head, notify the
evaluator; the first thrown error yields the 500 response and skips all
remaining steps.  Returns the response and the ordered call trace. -/
def pipeline (env : Env) (w : World) (b : ReqBody) : Response × List Call :=
  let owner := env.GITHUB_USERNAME.getD ""
  let task := b.task.getD ""
  let brief := b.brief.getD ""
  let html := chosenHTML w.htmlGen brief
  let readme := chosenREADME w.readmeGen task brief
  let t0 : List Call := [.anthropicCall "html", .anthropicCall "readme"]
  match ghCreateRepo owner task w.createRepo with
  | .error e => (⟨500, .err e⟩, t0 ++ [.createRepoCall])
  | .ok repo =>
    let repoUrl := jsOrStr repo.html_url (repoUrlOf owner task)
    let t1 := t0 ++ [.createRepoCall]
    match ghGetSha w.shaIndex with
    | .error e => (⟨500, .err e⟩, t1 ++ [.getShaCall "index.html"])
    | .ok idxSha =>
      let pIdx := mkPutPayload "index.html" (toB64 html)
        (commitMessage "index.html" b.round) idxSha
      let t2 := t1 ++ [.getShaCall "index.html", .putCall pIdx]
      match ghPutFile "index.html" w.putIndex with
      | .error e => (⟨500, .err e⟩, t2)
      | .ok _ =>
        match ghGetSha w.shaReadme with
        | .error e => (⟨500, .err e⟩, t2 ++ [.getShaCall "README.md"])
        | .ok rmdSha =>
          let pRmd := mkPutPayload "README.md" (toB64 readme)
            (commitMessage "README.md" b.round) rmdSha
          let t3 := t2 ++ [.getShaCall "README.md", .putCall pRmd]
          match ghPutFile "README.md" w.putReadme with
          | .error e => (⟨500, .err e⟩, t3)
          | .ok _ =>
            match ghEnablePages owner task w.pages with
            | .error e => (⟨500, .err e⟩, t3 ++ [.pagesCall])
            | .ok pagesUrl =>
              match ghLatestCommit w.ref with
              | .error e => (⟨500, .err e⟩, t3 ++ [.pagesCall, .refCall])
              | .ok commitSha =>
                let n := notify w.callback 5
                let t4 := t3 ++ [.pagesCall, .refCall] ++ n.2
                if n.1 then
                  (⟨200, .ok repoUrl commitSha pagesUrl⟩, t4)
                else
                  (⟨500, .err "Evaluation notification failed after retries"⟩, t4)

/-- The edge handler: reject non-POST; parse the body (parse failure
yields `{}`); reject when any of the four environment values is missing;
reject a missing or mismatched secret (403); reject missing required
fields (400); otherwise run the pipeline. -/
def handler (env : Env) (w : World) (req : Request) : Response × List Call :=
  if req.method ≠ "POST" then (⟨405, .err "Method Not Allowed"⟩, [])
  else
    let b := req.body.getD emptyBody
    if !jsTruthyStr env.GITHUB_USERNAME || !jsTruthyStr env.GITHUB_TOKEN
        || !jsTruthyStr env.STUDENT_SECRET || !jsTruthyStr env.ANTHROPIC_API_KEY then
      (⟨500, .err "Server missing one or more env vars (see logs)"⟩, [])
    else if !jsTruthyStr b.secret || b.secret ≠ env.STUDENT_SECRET then
      (⟨403, .err "Invalid secret"⟩, [])
    else if !jsTruthyStr b.email || !jsTruthyStr b.task || !jsTruthyInt b.round
        || !jsTruthyStr b.nonce || !jsTruthyStr b.brief
        || !jsTruthyStr b.evaluation_url then
      (⟨400, .err "Missing required fields"⟩, [])
    else
      pipeline env w b

/-! ## Validity predicates and shared lemmas -/

/-- All four process-wide configuration values are present and non-empty,
so the env-presence check passes. -/
def envReady (env : Env) : Prop :=
  jsTruthyStr env.GITHUB_USERNAME = true ∧ jsTruthyStr env.GITHUB_TOKEN = true ∧
  jsTruthyStr env.STUDENT_SECRET = true ∧ jsTruthyStr env.ANTHROPIC_API_KEY = true

/-- The request body passes both the secret check and the required-fields
check. -/
def validBody (env : Env) (b : ReqBody) : Prop :=
  jsTruthyStr b.secret = true ∧ b.secret = env.STUDENT_SECRET ∧
  jsTruthyStr b.email = true ∧ jsTruthyStr b.task = true ∧
  jsTruthyInt b.round = true ∧ jsTruthyStr b.nonce = true ∧
  jsTruthyStr b.brief = true ∧ jsTruthyStr b.evaluation_url = true

/-- On a POST request with a parseable body passing every check, the
handler runs the pipeline. -/
theorem handler_valid (env : Env) (w : World) (b : ReqBody)
    (he : envReady env) (hb : validBody env b) :
    handler env w ⟨"POST", some b⟩ = pipeline env w b := by
  obtain ⟨h1, h2, h3, h4⟩ := he
  obtain ⟨s1, s2, e1, t1, r1, n1, br1, u1⟩ := hb
  simp [handler, h1, h2, h3, h4, s1, s2, e1, t1, r1, n1, br1, u1]

/-- Two strings with different character lists are different. -/
theorem string_ne_of_data_ne {a b : String} (h : a.data ≠ b.data) : a ≠ b :=
  fun he => h (congrArg String.data he)

/-- Two strings with different first characters are different. -/
theorem string_ne_of_front {a b : String} (h : a.data.head? ≠ b.data.head?) :
    a ≠ b :=
  fun he => h (congrArg (fun s => s.data.head?) he)

/-! ## Notifier traces -/

/-- Canonical successful notify trace: attempts `i, i+1, ..., i+k`, with
the sleep of `2^j * 1000` ms directly after the failed attempt `j` and
before attempt `j+1`, and no sleep before the first attempt. -/
def attemptTraceFrom (i : Nat) : Nat → List Call
  | 0 => [.notifyAttempt i]
  | k + 1 => .notifyAttempt i :: .sleep (2 ^ i * 1000) :: attemptTraceFrom (i + 1) k

/-- Canonical exhausted notify trace: `fuel` failed attempts starting at
`i`, each followed by its backoff sleep. -/
def exhaustTraceFrom (i : Nat) : Nat → List Call
  | 0 => []
  | f + 1 => .notifyAttempt i :: .sleep (2 ^ i * 1000) :: exhaustTraceFrom (i + 1) f

/-- Recognizer for delivery attempts in a trace. -/
def isNotifyAttempt : Call → Bool
  | .notifyAttempt _ => true
  | _ => false

/-- The notify loop, started at attempt `i`, on an endpoint failing the
first `k` attempts and succeeding on attempt `i + k`, produces exactly
the canonical backoff trace and reports delivery. -/
theorem notifyGo_schedule (outcome : Nat → Bool) (k : Nat) :
    ∀ i fuel, k < fuel → (∀ j, j < k → outcome (i + j) = false) →
      outcome (i + k) = true →
      notifyGo outcome i fuel = (true, attemptTraceFrom i k) := by
  induction k with
  | zero =>
      intro i fuel hk hfail hsucc
      obtain ⟨f, rfl⟩ : ∃ f, fuel = f + 1 := ⟨fuel - 1, by omega⟩
      simp only [Nat.add_zero] at hsucc
      simp [notifyGo, hsucc, attemptTraceFrom]
  | succ k ih =>
      intro i fuel hk hfail hsucc
      obtain ⟨f, rfl⟩ : ∃ f, fuel = f + 1 := ⟨fuel - 1, by omega⟩
      have h0 : outcome i = false := by simpa using hfail 0 (Nat.succ_pos k)
      have hrest := ih (i + 1) f (by omega)
        (fun j hj => by
          have h := hfail (j + 1) (by omega)
          rw [show i + (j + 1) = (i + 1) + j by omega] at h
          exact h)
        (by
          rw [show (i + 1) + k = i + (k + 1) by omega]
          exact hsucc)
      simp [notifyGo, h0, hrest, attemptTraceFrom]

/-- The notify loop on an endpoint that never succeeds performs every
remaining attempt, each followed by its backoff sleep, and reports
non-delivery; no attempt raises. -/
theorem notifyGo_exhaust (outcome : Nat → Bool)
    (hfail : ∀ i, outcome i = false) :
    ∀ i fuel, notifyGo outcome i fuel = (false, exhaustTraceFrom i fuel) := by
  intro i fuel
  induction fuel generalizing i with
  | zero => simp [notifyGo, exhaustTraceFrom]
  | succ f ih => simp [notifyGo, hfail i, ih (i + 1), exhaustTraceFrom]

/-- The exhausted trace contains exactly `fuel` attempts. -/
theorem exhaustTraceFrom_attempts (i fuel : Nat) :
    ((exhaustTraceFrom i fuel).filter isNotifyAttempt).length = fuel := by
  induction fuel generalizing i with
  | zero => simp [exhaustTraceFrom]
  | succ f ih => simp [exhaustTraceFrom, List.filter, isNotifyAttempt, ih (i + 1)]

/-- Normalisation to `null` is idempotent. -/
@[simp]
theorem jsOrNull_idem (a : Option String) : jsOrNull (jsOrNull a) = jsOrNull a := by
  cases a with
  | none => rfl
  | some s =>
      by_cases h : s = "" <;> simp [jsOrNull, h]

/-- The ordered outbound-call trace of the publish stages of a successful
run: repository creation, then for each of the two files a marker lookup
immediately followed by its put, then enable-pages, then the branch-head
read.  `m1`/`m2` are the markers the two lookups return. -/
def pubTrace (b : ReqBody) (hg rg : ProviderResult)
    (m1 m2 : Option String) : List Call :=
  [.anthropicCall "html", .anthropicCall "readme", .createRepoCall,
   .getShaCall "index.html",
   .putCall (mkPutPayload "index.html"
     (toB64 (chosenHTML hg (b.brief.getD "")))
     (commitMessage "index.html" b.round) (jsOrNull m1)),
   .getShaCall "README.md",
   .putCall (mkPutPayload "README.md"
     (toB64 (chosenREADME rg (b.task.getD "") (b.brief.getD "")))
     (commitMessage "README.md" b.round) (jsOrNull m2)),
   .pagesCall, .refCall]

/-- The success response of a run: repository URL from the create call
(or synthesized), branch head (or "unknown"), and the hosting URL. -/
def successResponse (env : Env) (b : ReqBody) (cu rs : Option String) :
    Response :=
  ⟨200, .ok
    (jsOrStr cu (repoUrlOf (env.GITHUB_USERNAME.getD "") (b.task.getD "")))
    (jsOrStr rs "unknown")
    ("https://" ++ env.GITHUB_USERNAME.getD "" ++ ".github.io/"
      ++ b.task.getD "" ++ "/")⟩

/-- C2: notify performs its delivery attempts in order with no delay
before the first attempt; after each unsuccessful attempt `i`
(zero-indexed) it waits exactly `2^i` seconds (`2^i * 1000` ms) before
the next attempt.  For an endpoint failing the first `k` attempts and
succeeding on attempt `k` (with `k < maxAttempts`), it returns
delivered = true and its trace is exactly attempts `0..k` interleaved
with the sleeps `2^0 * 1000, ..., 2^(k-1) * 1000`; in particular, for an
endpoint that fails the first 2 attempts and succeeds on the 3rd, the
delays are 1s then 2s. -/
theorem notify_backoff_schedule (outcome : Nat → Bool) (k maxAttempts : Nat)
    (hk : k < maxAttempts) (hfail : ∀ j, j < k → outcome j = false)
    (hsucc : outcome k = true) :
    notify outcome maxAttempts = (true, attemptTraceFrom 0 k) := by
  have h := notifyGo_schedule outcome k 0 maxAttempts hk
    (fun j hj => by simpa using hfail j hj) (by simpa using hsucc)
  simpa [notify] using h

/-- Witness for C2: the concrete endpoint failing attempts 0 and 1 and
succeeding on attempt 2 is delivered after delays of exactly 1s and 2s,
with no delay before the first attempt. -/
theorem notify_backoff_schedule_witness :
    (∀ j, j < 2 → (fun i => decide (2 ≤ i)) j = false) ∧
    notify (fun i => decide (2 ≤ i)) 5 =
      (true, [.notifyAttempt 0, .sleep 1000, .notifyAttempt 1, .sleep 2000,
              .notifyAttempt 2]) := by
  refine ⟨fun j hj => ?_, ?_⟩
  · have : j = 0 ∨ j = 1 := by omega
    rcases this with rfl | rfl <;> decide
  · have h := notify_backoff_schedule (fun i => decide (2 ≤ i)) 2 5
      (by decide)
      (fun j hj => by
        have : j = 0 ∨ j = 1 := by omega
        rcases this with rfl | rfl <;> decide)
      (by decide)
    simpa [attemptTraceFrom] using h

/-- C3: against a callback endpoint that never returns a successful
status, notify makes exactly 5 attempts (the default), never raising on
an unsuccessful attempt (it is a total function returning a Boolean),
and returns delivered = false; the Orchestrator then - although every
deployment stage succeeded - returns the fatal 500 response whose error
message is "Evaluation notification failed after retries", a message
distinct from every publish-failure message (file put, repository
creation, hosting enable). -/
theorem notify_exhaustion_is_fatal (env : Env) (b : ReqBody)
    (hg rg : ProviderResult) (cu m1 m2 rs : Option String)
    (outcome : Nat → Bool)
    (he : envReady env) (hb : validBody env b)
    (hfail : ∀ i, outcome i = false) :
    notify outcome 5 = (false, exhaustTraceFrom 0 5) ∧
    ((exhaustTraceFrom 0 5).filter isNotifyAttempt).length = 5 ∧
    handler env
      ⟨hg, rg, .ok cu, .ok m1, .ok, .ok m2, .ok, .ok, .ok rs, outcome⟩
      ⟨"POST", some b⟩ =
      (⟨500, .err "Evaluation notification failed after retries"⟩,
       pubTrace b hg rg m1 m2 ++ exhaustTraceFrom 0 5) ∧
    (∀ (path : String) (st : Nat) (m : Option String) (txt : String),
      ("Evaluation notification failed after retries" : String) ≠
        "GitHub PUT " ++ path ++ " " ++ toString st ++ ": " ++ jsOrStr m txt) ∧
    (∀ (st : Nat) (m : Option String) (txt : String),
      ("Evaluation notification failed after retries" : String) ≠
        "GitHub create repo " ++ toString st ++ ": " ++ jsOrStr m txt) ∧
    (∀ (st : Nat) (m : Option String) (txt : String),
      ("Evaluation notification failed after retries" : String) ≠
        "GitHub enable pages " ++ toString st ++ ": " ++ jsOrStr m txt) := by
  have hN : notify outcome 5 = (false, exhaustTraceFrom 0 5) := by
    simpa [notify] using notifyGo_exhaust outcome hfail 0 5
  refine ⟨hN, exhaustTraceFrom_attempts 0 5, ?_, ?_, ?_, ?_⟩
  · rw [handler_valid _ _ _ he hb]
    simp [pipeline, ghCreateRepo, ghGetSha, ghPutFile, ghEnablePages,
      ghLatestCommit, hN, pubTrace, mkPutPayload]
  · intro path st m txt
    apply string_ne_of_front
    simp only [String.data_append, List.append_assoc]
    rw [List.head?_append_of_ne_nil _ (by decide)]
    decide
  · intro st m txt
    apply string_ne_of_front
    simp only [String.data_append, List.append_assoc]
    rw [List.head?_append_of_ne_nil _ (by decide)]
    decide
  · intro st m txt
    apply string_ne_of_front
    simp only [String.data_append, List.append_assoc]
    rw [List.head?_append_of_ne_nil _ (by decide)]
    decide

/-- C4: under a valid request the stages run in the fixed order
generate (both documents) → create/reuse repository → marker lookup +
write of index.html → marker lookup + write of README.md → enable
hosting → resolve revision → notify, each awaited before the next, and
the caller receives exactly one JSON response.  The first conjunct gives
the full success trace and the success object; each further conjunct
makes one stage fail and shows the single 500 response carrying exactly
that first fatal cause, with the trace cut off at the failing call — no
later outbound call is made and no earlier effect is rolled back. -/
theorem handler_stage_order (env : Env) (b : ReqBody)
    (he : envReady env) (hb : validBody env b) :
    (∀ (hg rg : ProviderResult) (cu m1 m2 rs : Option String)
        (outcome : Nat → Bool), outcome 0 = true →
      handler env ⟨hg, rg, .ok cu, .ok m1, .ok, .ok m2, .ok, .ok, .ok rs, outcome⟩
          ⟨"POST", some b⟩ =
        (successResponse env b cu rs,
         pubTrace b hg rg m1 m2 ++ [.notifyAttempt 0])) ∧
    (∀ (w : World) (st : Nat) (errs : List String) (msg : Option String)
        (txt : String), isAlreadyExists st errs = false →
      handler env { w with createRepo := .err st errs msg txt }
          ⟨"POST", some b⟩ =
        (⟨500, .err ("GitHub create repo " ++ toString st ++ ": " ++ jsOrStr msg txt)⟩,
         [.anthropicCall "html", .anthropicCall "readme", .createRepoCall])) ∧
    (∀ (w : World) (cu : Option String) (st : Nat) (txt : String),
      handler env { w with createRepo := .ok cu, shaIndex := .fail st txt }
          ⟨"POST", some b⟩ =
        (⟨500, .err ("GitHub get sha " ++ toString st ++ " " ++ txt)⟩,
         [.anthropicCall "html", .anthropicCall "readme", .createRepoCall,
          .getShaCall "index.html"])) ∧
    (∀ (w : World) (cu m1 : Option String) (st : Nat) (msg : Option String)
        (txt : String),
      handler env { w with createRepo := .ok cu, shaIndex := .ok m1,
                           putIndex := .fail st msg txt } ⟨"POST", some b⟩ =
        (⟨500, .err ("GitHub PUT index.html " ++ toString st ++ ": " ++ jsOrStr msg txt)⟩,
         [.anthropicCall "html", .anthropicCall "readme", .createRepoCall,
          .getShaCall "index.html",
          .putCall (mkPutPayload "index.html"
            (toB64 (chosenHTML w.htmlGen (b.brief.getD "")))
            (commitMessage "index.html" b.round) (jsOrNull m1))])) ∧
    (∀ (w : World) (cu m1 : Option String) (st : Nat) (txt : String),
      handler env { w with createRepo := .ok cu, shaIndex := .ok m1,
                           putIndex := .ok, shaReadme := .fail st txt } ⟨"POST", some b⟩ =
        (⟨500, .err ("GitHub get sha " ++ toString st ++ " " ++ txt)⟩,
         [.anthropicCall "html", .anthropicCall "readme", .createRepoCall,
          .getShaCall "index.html",
          .putCall (mkPutPayload "index.html"
            (toB64 (chosenHTML w.htmlGen (b.brief.getD "")))
            (commitMessage "index.html" b.round) (jsOrNull m1)),
          .getShaCall "README.md"])) ∧
    (∀ (w : World) (cu m1 m2 : Option String) (st : Nat) (msg : Option String)
        (txt : String),
      handler env { w with createRepo := .ok cu, shaIndex := .ok m1,
                           putIndex := .ok, shaReadme := .ok m2,
                           putReadme := .fail st msg txt } ⟨"POST", some b⟩ =
        (⟨500, .err ("GitHub PUT README.md " ++ toString st ++ ": " ++ jsOrStr msg txt)⟩,
         [.anthropicCall "html", .anthropicCall "readme", .createRepoCall,
          .getShaCall "index.html",
          .putCall (mkPutPayload "index.html"
            (toB64 (chosenHTML w.htmlGen (b.brief.getD "")))
            (commitMessage "index.html" b.round) (jsOrNull m1)),
          .getShaCall "README.md",
          .putCall (mkPutPayload "README.md"
            (toB64 (chosenREADME w.readmeGen (b.task.getD "") (b.brief.getD "")))
            (commitMessage "README.md" b.round) (jsOrNull m2))])) ∧
    (∀ (w : World) (cu m1 m2 : Option String) (st : Nat) (msg : Option String)
        (txt : String), st ≠ 409 →
      handler env { w with createRepo := .ok cu, shaIndex := .ok m1,
                           putIndex := .ok, shaReadme := .ok m2, putReadme := .ok,
                           pages := .errStatus st msg txt } ⟨"POST", some b⟩ =
        (⟨500, .err ("GitHub enable pages " ++ toString st ++ ": " ++ jsOrStr msg txt)⟩,
         [.anthropicCall "html", .anthropicCall "readme", .createRepoCall,
          .getShaCall "index.html",
          .putCall (mkPutPayload "index.html"
            (toB64 (chosenHTML w.htmlGen (b.brief.getD "")))
            (commitMessage "index.html" b.round) (jsOrNull m1)),
          .getShaCall "README.md",
          .putCall (mkPutPayload "README.md"
            (toB64 (chosenREADME w.readmeGen (b.task.getD "") (b.brief.getD "")))
            (commitMessage "README.md" b.round) (jsOrNull m2)),
          .pagesCall])) ∧
    (∀ (w : World) (cu m1 m2 : Option String) (st : Nat) (txt : String),
      handler env { w with createRepo := .ok cu, shaIndex := .ok m1,
                           putIndex := .ok, shaReadme := .ok m2, putReadme := .ok,
                           pages := .ok, ref := .fail st txt } ⟨"POST", some b⟩ =
        (⟨500, .err ("GitHub ref " ++ toString st ++ " " ++ txt)⟩,
         pubTrace b w.htmlGen w.readmeGen m1 m2)) := by
  obtain ⟨hbS, hbS2, hbE, hbT, hbR, hbN, hbB, hbU⟩ := hb
  refine ⟨?_, ?_, ?_, ?_, ?_, ?_, ?_, ?_⟩
  · intro hg rg cu m1 m2 rs outcome h0
    rw [handler_valid _ _ _ he ⟨hbS, hbS2, hbE, hbT, hbR, hbN, hbB, hbU⟩]
    simp [pipeline, ghCreateRepo, ghGetSha, ghPutFile, ghEnablePages,
      ghLatestCommit, notify, notifyGo, h0, pubTrace, mkPutPayload,
      successResponse]
  · intro w st errs msg txt hne
    rw [handler_valid _ _ _ he ⟨hbS, hbS2, hbE, hbT, hbR, hbN, hbB, hbU⟩]
    simp [pipeline, ghCreateRepo, hne]
  · intro w cu st txt
    rw [handler_valid _ _ _ he ⟨hbS, hbS2, hbE, hbT, hbR, hbN, hbB, hbU⟩]
    simp [pipeline, ghCreateRepo, ghGetSha]
  · intro w cu m1 st msg txt
    rw [handler_valid _ _ _ he ⟨hbS, hbS2, hbE, hbT, hbR, hbN, hbB, hbU⟩]
    simp [pipeline, ghCreateRepo, ghGetSha, ghPutFile, mkPutPayload]
  · intro w cu m1 st txt
    rw [handler_valid _ _ _ he ⟨hbS, hbS2, hbE, hbT, hbR, hbN, hbB, hbU⟩]
    simp [pipeline, ghCreateRepo, ghGetSha, ghPutFile, mkPutPayload]
  · intro w cu m1 m2 st msg txt
    rw [handler_valid _ _ _ he ⟨hbS, hbS2, hbE, hbT, hbR, hbN, hbB, hbU⟩]
    simp [pipeline, ghCreateRepo, ghGetSha, ghPutFile, mkPutPayload]
  · intro w cu m1 m2 st msg txt hne
    rw [handler_valid _ _ _ he ⟨hbS, hbS2, hbE, hbT, hbR, hbN, hbB, hbU⟩]
    simp [pipeline, ghCreateRepo, ghGetSha, ghPutFile, ghEnablePages, hne,
      pubTrace, mkPutPayload]
  · intro w cu m1 m2 st txt
    rw [handler_valid _ _ _ he ⟨hbS, hbS2, hbE, hbT, hbR, hbN, hbB, hbU⟩]
    simp [pipeline, ghCreateRepo, ghGetSha, ghPutFile, ghEnablePages,
      ghLatestCommit, pubTrace, mkPutPayload]

/-- A string with a non-empty prefix is non-empty. -/
theorem append_ne_empty_left (a b : String) (h : a.data ≠ []) : a ++ b ≠ "" := by
  intro he
  have hd := congrArg String.data he
  rw [String.data_append] at hd
  exact h (List.append_eq_nil.mp hd).1

/-- The synthesized repository URL is never the empty string. -/
theorem repoUrlOf_ne_empty (owner name : String) : repoUrlOf owner name ≠ "" := by
  unfold repoUrlOf
  rw [String.append_assoc, String.append_assoc]
  exact append_ne_empty_left _ _ (by decide)

instance (env : Env) : Decidable (envReady env) := by
  unfold envReady; infer_instance

instance (env : Env) (b : ReqBody) : Decidable (validBody env b) := by
  unfold validBody; infer_instance

/-- A concrete well-formed environment used by the witnesses. -/
def envW : Env := ⟨some "octo", some "tok", some "sec", some "key"⟩

/-- A concrete fully valid request body used by the witnesses. -/
def bodyW : ReqBody :=
  { email := some "a@b.c", secret := some "sec", task := some "t1",
    round := some 1, nonce := some "n", brief := some "b",
    evaluation_url := some "https://e" }

/-- A concrete all-success world used by the witnesses. -/
def wW : World :=
  ⟨.ok (some "<!DOCTYPE html></html>"), .ok (some "md"),
   .ok (some "https://github.com/octo/t1"), .ok none, .ok, .ok none, .ok,
   .ok, .ok (some "abc"), fun _ => true⟩

/-- Witness for C4: on the concrete valid request against the concrete
all-success world the handler performs exactly the canonical ordered
trace and returns the success object. -/
theorem handler_stage_order_witness :
    envReady envW ∧ validBody envW bodyW ∧
    handler envW wW ⟨"POST", some bodyW⟩ =
      (successResponse envW bodyW (some "https://github.com/octo/t1") (some "abc"),
       pubTrace bodyW (.ok (some "<!DOCTYPE html></html>")) (.ok (some "md"))
         none none ++ [.notifyAttempt 0]) := by
  refine ⟨by decide, by decide, ?_⟩
  exact (handler_stage_order envW bodyW (by decide) (by decide)).1
    (.ok (some "<!DOCTYPE html></html>")) (.ok (some "md"))
    (some "https://github.com/octo/t1") none none (some "abc")
    (fun _ => true) rfl

/-- Witness for C3: the concrete always-failing endpoint exhausts exactly
5 attempts and reports non-delivery, and the concrete
otherwise-successful run ends in the notification-failure 500 response. -/
theorem notify_exhaustion_is_fatal_witness :
    envReady envW ∧ validBody envW bodyW ∧
    notify (fun _ => false) 5 = (false, exhaustTraceFrom 0 5) ∧
    handler envW
        ⟨.ok (some "<!DOCTYPE html></html>"), .ok (some "md"),
         .ok (some "https://github.com/octo/t1"), .ok none, .ok, .ok none,
         .ok, .ok, .ok (some "abc"), fun _ => false⟩ ⟨"POST", some bodyW⟩ =
      (⟨500, .err "Evaluation notification failed after retries"⟩,
       pubTrace bodyW (.ok (some "<!DOCTYPE html></html>")) (.ok (some "md"))
         none none ++ exhaustTraceFrom 0 5) := by
  have h := notify_exhaustion_is_fatal envW bodyW
    (.ok (some "<!DOCTYPE html></html>")) (.ok (some "md"))
    (some "https://github.com/octo/t1") none none (some "abc")
    (fun _ => false) (by decide) (by decide) (fun i => rfl)
  exact ⟨by decide, by decide, h.1, h.2.2.1⟩

/-- C5: with configuration present, a request whose credential is missing
or does not match the process-wide expected value is rejected with the
403 forbidden response, and a request passing the credential check but
missing any other required field (requester identity, task identifier,
round, nonce, brief, callback URL) is rejected with the 400 client-error
response; in both cases the outbound-call trace is empty, so no
generation or repository call is ever made. -/
theorem invalid_request_rejected_before_calls (env : Env) (w : World)
    (b : ReqBody) (he : envReady env) :
    ((jsTruthyStr b.secret = false ∨ b.secret ≠ env.STUDENT_SECRET) →
      handler env w ⟨"POST", some b⟩ = (⟨403, .err "Invalid secret"⟩, [])) ∧
    (jsTruthyStr b.secret = true → b.secret = env.STUDENT_SECRET →
      (jsTruthyStr b.email = false ∨ jsTruthyStr b.task = false ∨
       jsTruthyInt b.round = false ∨ jsTruthyStr b.nonce = false ∨
       jsTruthyStr b.brief = false ∨ jsTruthyStr b.evaluation_url = false) →
      handler env w ⟨"POST", some b⟩ =
        (⟨400, .err "Missing required fields"⟩, [])) := by
  obtain ⟨h1, h2, h3, h4⟩ := he
  constructor
  · rintro (hs | hs)
    · simp [handler, h1, h2, h3, h4, hs]
    · simp [handler, h1, h2, h3, h4, hs]
  · rintro hs1 hs2 (hf | hf | hf | hf | hf | hf) <;>
      simp [handler, h1, h2, h3, h4, hs1, hs2, hf]

/-- Witness for C5: a wrong credential yields the 403 response with no
outbound call, and a missing callback URL yields the 400 response with no
outbound call. -/
theorem invalid_request_rejected_before_calls_witness :
    envReady envW ∧
    handler envW wW ⟨"POST", some { bodyW with secret := some "wrong" }⟩ =
      (⟨403, .err "Invalid secret"⟩, []) ∧
    handler envW wW ⟨"POST", some { bodyW with evaluation_url := none }⟩ =
      (⟨400, .err "Missing required fields"⟩, []) := by
  refine ⟨by decide, ?_, ?_⟩
  · exact (invalid_request_rejected_before_calls envW wW
      { bodyW with secret := some "wrong" } (by decide)).1 (Or.inr (by decide))
  · exact (invalid_request_rejected_before_calls envW wW
      { bodyW with evaluation_url := none } (by decide)).2 (by decide) (by decide)
      (Or.inr (Or.inr (Or.inr (Or.inr (Or.inr (by decide))))))

/-- C6: for each of the two file writes the publisher first performs the
marker lookup for the path, treating a 404 (signalled distinctly from a
transport error, which is fatal) as the new-file case with no marker; the
subsequent put attaches the looked-up marker exactly when one was found
(its `sha` property is the normalised marker, absent in the 404 case),
and the commit message is the "Add <file>" form if and only if round
equals 1, otherwise the "Update <file> - Round N" form. -/
theorem writeFile_marker_and_message (env : Env) (b : ReqBody)
    (he : envReady env) (hb : validBody env b) :
    ghGetSha .status404 = .ok none ∧
    (∀ (st : Nat) (txt : String),
      ghGetSha (.fail st txt) =
        .error ("GitHub get sha " ++ toString st ++ " " ++ txt)) ∧
    (∀ (s : String), s ≠ "" → ghGetSha (.ok (some s)) = .ok (some s)) ∧
    (∀ (hg rg : ProviderResult) (cu m1 m2 rs : Option String)
        (outcome : Nat → Bool), outcome 0 = true →
      (handler env ⟨hg, rg, .ok cu, .ok m1, .ok, .ok m2, .ok, .ok, .ok rs,
          outcome⟩ ⟨"POST", some b⟩).2 =
        [.anthropicCall "html", .anthropicCall "readme", .createRepoCall,
         .getShaCall "index.html",
         .putCall ⟨"index.html", commitMessage "index.html" b.round,
           toB64 (chosenHTML hg (b.brief.getD "")), jsOrNull m1⟩,
         .getShaCall "README.md",
         .putCall ⟨"README.md", commitMessage "README.md" b.round,
           toB64 (chosenREADME rg (b.task.getD "") (b.brief.getD "")),
           jsOrNull m2⟩,
         .pagesCall, .refCall, .notifyAttempt 0]) ∧
    (∀ (hg rg : ProviderResult) (cu rs : Option String)
        (outcome : Nat → Bool), outcome 0 = true →
      (handler env ⟨hg, rg, .ok cu, .status404, .ok, .status404, .ok, .ok,
          .ok rs, outcome⟩ ⟨"POST", some b⟩).2 =
        [.anthropicCall "html", .anthropicCall "readme", .createRepoCall,
         .getShaCall "index.html",
         .putCall ⟨"index.html", commitMessage "index.html" b.round,
           toB64 (chosenHTML hg (b.brief.getD "")), none⟩,
         .getShaCall "README.md",
         .putCall ⟨"README.md", commitMessage "README.md" b.round,
           toB64 (chosenREADME rg (b.task.getD "") (b.brief.getD "")),
           none⟩,
         .pagesCall, .refCall, .notifyAttempt 0]) ∧
    (∀ (path : String), commitMessage path (some 1) = "Add " ++ path) ∧
    (∀ (path : String) (rd : Option Int), rd ≠ some 1 →
      commitMessage path rd =
        "Update " ++ path ++ " - Round " ++ toString (rd.getD 0) ∧
      commitMessage path rd ≠ "Add " ++ path) := by
  refine ⟨rfl, fun st txt => rfl, ?_, ?_, ?_, ?_, ?_⟩
  · intro s hs
    simp [ghGetSha, jsOrNull, hs]
  · intro hg rg cu m1 m2 rs outcome h0
    rw [handler_valid _ _ _ he hb]
    simp [pipeline, ghCreateRepo, ghGetSha, ghPutFile, ghEnablePages,
      ghLatestCommit, notify, notifyGo, h0, mkPutPayload]
  · intro hg rg cu rs outcome h0
    rw [handler_valid _ _ _ he hb]
    simp [pipeline, ghCreateRepo, ghGetSha, ghPutFile, ghEnablePages,
      ghLatestCommit, notify, notifyGo, h0, mkPutPayload, jsOrNull]
  · intro path
    simp [commitMessage]
  · intro path rd hrd
    refine ⟨by simp [commitMessage, hrd], ?_⟩
    rw [commitMessage, if_neg hrd]
    apply string_ne_of_front
    rw [String.append_assoc, String.append_assoc, String.data_append,
      List.head?_append_of_ne_nil _ (by decide), String.data_append,
      List.head?_append_of_ne_nil _ (by decide)]
    decide

/-- Witness for C6: on the concrete valid round-1 request with one marker
found for index.html (sha "oldsha") and none for README.md, the put
payloads attach exactly those markers and carry the "Add" commit
messages. -/
theorem writeFile_marker_and_message_witness :
    envReady envW ∧ validBody envW bodyW ∧ ("oldsha" : String) ≠ "" ∧
    ghGetSha (.ok (some "oldsha")) = .ok (some "oldsha") ∧
    (handler envW
        ⟨.ok (some "<!DOCTYPE html></html>"), .ok (some "md"),
         .ok (some "https://github.com/octo/t1"), .ok (some "oldsha"), .ok,
         .status404, .ok, .ok, .ok (some "abc"), fun _ => true⟩
        ⟨"POST", some bodyW⟩).2 =
      [.anthropicCall "html", .anthropicCall "readme", .createRepoCall,
       .getShaCall "index.html",
       .putCall ⟨"index.html", commitMessage "index.html" bodyW.round,
         toB64 (chosenHTML (.ok (some "<!DOCTYPE html></html>"))
           (bodyW.brief.getD "")), jsOrNull (some "oldsha")⟩,
       .getShaCall "README.md",
       .putCall ⟨"README.md", commitMessage "README.md" bodyW.round,
         toB64 (chosenREADME (.ok (some "md")) (bodyW.task.getD "")
           (bodyW.brief.getD "")), jsOrNull .none⟩,
       .pagesCall, .refCall, .notifyAttempt 0] := by
  have h := writeFile_marker_and_message envW bodyW (by decide) (by decide)
  refine ⟨by decide, by decide, by decide, h.2.2.1 "oldsha" (by decide), ?_⟩
  have h4 := h.2.2.2.1 (.ok (some "<!DOCTYPE html></html>")) (.ok (some "md"))
    (some "https://github.com/octo/t1") (some "oldsha") .none (some "abc")
    (fun _ => true) rfl
  simpa using h4

/-- C7: when repository creation fails precisely because the name already
exists (422 with a "name already exists" error), `ghCreateRepo` returns
success with `existed = true` and the URL synthesized from the owning
account and the task identifier, and the run proceeds to write both
files using that URL; every other creation failure is fatal and stops the
run before any file write; and a successful (200) run is only ever
possible when the create call succeeded or failed as already-exists —
no other creation failure is downgraded to success. -/
theorem ensureRepository_already_exists (env : Env) (b : ReqBody)
    (he : envReady env) (hb : validBody env b) :
    (∀ (owner name : String) (st : Nat) (errs : List String)
        (msg : Option String) (txt : String), isAlreadyExists st errs = true →
      ghCreateRepo owner name (.err st errs msg txt) =
        .ok ⟨some (repoUrlOf owner name), true⟩) ∧
    (∀ (hg rg : ProviderResult) (st : Nat) (errs : List String)
        (msg : Option String) (txt : String) (m1 m2 rs : Option String)
        (outcome : Nat → Bool),
      isAlreadyExists st errs = true → outcome 0 = true →
      handler env ⟨hg, rg, .err st errs msg txt, .ok m1, .ok, .ok m2, .ok,
          .ok, .ok rs, outcome⟩ ⟨"POST", some b⟩ =
        (⟨200, .ok (repoUrlOf (env.GITHUB_USERNAME.getD "") (b.task.getD ""))
           (jsOrStr rs "unknown")
           ("https://" ++ env.GITHUB_USERNAME.getD "" ++ ".github.io/"
             ++ b.task.getD "" ++ "/")⟩,
         pubTrace b hg rg m1 m2 ++ [.notifyAttempt 0])) ∧
    (∀ (w : World) (st : Nat) (errs : List String) (msg : Option String)
        (txt : String), isAlreadyExists st errs = false →
      handler env { w with createRepo := .err st errs msg txt }
          ⟨"POST", some b⟩ =
        (⟨500, .err ("GitHub create repo " ++ toString st ++ ": "
           ++ jsOrStr msg txt)⟩,
         [.anthropicCall "html", .anthropicCall "readme", .createRepoCall])) ∧
    (∀ (w : World) (req : Request),
      (handler env w req).1.status = 200 →
      (∃ u, w.createRepo = .ok u) ∨
      (∃ st errs msg txt, w.createRepo = .err st errs msg txt ∧
        isAlreadyExists st errs = true)) := by
  refine ⟨?_, ?_, ?_, ?_⟩
  · intro owner name st errs msg txt hae
    simp [ghCreateRepo, hae]
  · intro hg rg st errs msg txt m1 m2 rs outcome hae h0
    rw [handler_valid _ _ _ he hb]
    simp [pipeline, ghCreateRepo, hae, ghGetSha, ghPutFile, ghEnablePages,
      ghLatestCommit, notify, notifyGo, h0, pubTrace, mkPutPayload,
      jsOrStr, repoUrlOf_ne_empty]
  · intro w st errs msg txt hae
    rw [handler_valid _ _ _ he hb]
    simp [pipeline, ghCreateRepo, hae]
  · intro w req h200
    rcases hw : w.createRepo with u | ⟨st, errs, msg, txt⟩
    · exact Or.inl ⟨u, rfl⟩
    · by_cases hae : isAlreadyExists st errs = true
      · exact Or.inr ⟨st, errs, msg, txt, rfl, hae⟩
      · exfalso
        rw [Bool.not_eq_true] at hae
        simp only [handler, pipeline, ghCreateRepo, hw, hae] at h200
        split at h200
        · simp at h200
        · split at h200
          · simp at h200
          · split at h200
            · simp at h200
            · split at h200
              · simp at h200
              · simp at h200

/-- Witness for C7: a 422 "name already exists" creation failure on the
concrete valid request still ends in the 200 success response carrying
the synthesized URL, after writing both files. -/
theorem ensureRepository_already_exists_witness :
    envReady envW ∧ validBody envW bodyW ∧
    isAlreadyExists 422 ["repository name already exists on this account"] = true ∧
    handler envW
        ⟨.ok (some "<!DOCTYPE html></html>"), .ok (some "md"),
         .err 422 ["repository name already exists on this account"]
           (some "Validation Failed") "Unprocessable Entity",
         .ok none, .ok, .ok none, .ok, .ok, .ok (some "abc"), fun _ => true⟩
        ⟨"POST", some bodyW⟩ =
      (⟨200, .ok (repoUrlOf (envW.GITHUB_USERNAME.getD "") (bodyW.task.getD ""))
         (jsOrStr (some "abc") "unknown")
         ("https://" ++ envW.GITHUB_USERNAME.getD "" ++ ".github.io/"
           ++ bodyW.task.getD "" ++ "/")⟩,
       pubTrace bodyW (.ok (some "<!DOCTYPE html></html>")) (.ok (some "md"))
         none none ++ [.notifyAttempt 0]) := by
  refine ⟨by decide, by decide, by decide, ?_⟩
  exact (ensureRepository_already_exists envW bodyW (by decide) (by decide)).2.1
    (.ok (some "<!DOCTYPE html></html>")) (.ok (some "md")) 422
    ["repository name already exists on this account"] (some "Validation Failed")
    "Unprocessable Entity" none none (some "abc") (fun _ => true) (by decide) rfl

/-- In every run the create-repository call is reached: the pipeline's
trace always contains it, whatever the world. -/
theorem createRepo_called (env : Env) (w : World) (b : ReqBody) :
    Call.createRepoCall ∈ (pipeline env w b).2 := by
  simp only [pipeline]
  repeat' split
  all_goals simp

set_option maxRecDepth 8192 in
/-- C1: whenever generating the primary document fails — provider error,
timeout, or output failing shape validation, i.e. `anthropicHTML` returns
an error — the handler substitutes the locally synthesized fallback
document, which is non-empty, embeds the HTML-escaped brief and a
visible note that generation failed; the run still reaches the
repository-publishing stage (the create-repository call is in the trace
for every world), and when everything downstream succeeds the caller
gets the 200 success response — a generation failure alone never
produces a failure response. -/
theorem generation_failure_falls_back (env : Env) (b : ReqBody)
    (hg : ProviderResult) (e : String)
    (he : envReady env) (hb : validBody env b)
    (hgen : anthropicHTML hg = .error e) :
    chosenHTML hg (b.brief.getD "") = fallbackHTML (b.brief.getD "") ∧
    fallbackHTML (b.brief.getD "") ≠ "" ∧
    (∃ pre post, fallbackHTML (b.brief.getD "") =
      pre ++ escapeAngles (b.brief.getD "") ++ post) ∧
    (∃ pre post, fallbackHTML (b.brief.getD "") =
      pre ++ "LLM generation failed; using fallback to continue deployment."
        ++ post) ∧
    (∀ (w : World), Call.createRepoCall ∈ (handler env w ⟨"POST", some b⟩).2) ∧
    (∀ (rg : ProviderResult) (cu m1 m2 rs : Option String)
        (outcome : Nat → Bool), outcome 0 = true →
      handler env ⟨hg, rg, .ok cu, .ok m1, .ok, .ok m2, .ok, .ok, .ok rs,
          outcome⟩ ⟨"POST", some b⟩ =
        (successResponse env b cu rs,
         pubTrace b hg rg m1 m2 ++ [.notifyAttempt 0])) := by
  refine ⟨by simp [chosenHTML, hgen], ?_, ?_, ?_, ?_, ?_⟩
  · intro hemp
    have hd := congrArg String.data hemp
    simp only [fallbackHTML, String.data_append, List.append_assoc] at hd
    exact absurd (List.append_eq_nil.mp hd).1 (by decide)
  · exact ⟨fallbackPre, fallbackPost, rfl⟩
  · refine ⟨"<!DOCTYPE html>\n<html lang=\"en\">\n<head>\n<meta charset=\"utf-8\"/><meta name=\"viewport\" content=\"width=device-width,initial-scale=1\"/>\n<title>Fallback App</title>\n<link rel=\"stylesheet\" href=\"https://cdnjs.cloudflare.com/ajax/libs/bootstrap/5.3.2/css/bootstrap.min.css\"/>\n<style>body\x7bpadding:2rem\x7d</style>\n</head>\n<body class=\"container\">\n  <h1 class=\"mb-3\">Fallback App</h1>\n  <p class=\"text-muted\">",
      ("</p>\n  <div class=\"card\"><div class=\"card-body\">\n    <h5 class=\"card-title\">Brief</h5>\n    <pre style=\"white-space:pre-wrap\">"
        ++ escapeAngles (b.brief.getD "")) ++ fallbackPost, ?_⟩
    have hpre : fallbackPre =
        ("<!DOCTYPE html>\n<html lang=\"en\">\n<head>\n<meta charset=\"utf-8\"/><meta name=\"viewport\" content=\"width=device-width,initial-scale=1\"/>\n<title>Fallback App</title>\n<link rel=\"stylesheet\" href=\"https://cdnjs.cloudflare.com/ajax/libs/bootstrap/5.3.2/css/bootstrap.min.css\"/>\n<style>body\x7bpadding:2rem\x7d</style>\n</head>\n<body class=\"container\">\n  <h1 class=\"mb-3\">Fallback App</h1>\n  <p class=\"text-muted\">"
          ++ "LLM generation failed; using fallback to continue deployment.")
          ++ "</p>\n  <div class=\"card\"><div class=\"card-body\">\n    <h5 class=\"card-title\">Brief</h5>\n    <pre style=\"white-space:pre-wrap\">" := by
      decide
    rw [fallbackHTML, hpre]
    simp only [String.append_assoc]
  · intro w
    rw [handler_valid _ _ _ he hb]
    exact createRepo_called env w b
  · intro rg cu m1 m2 rs outcome h0
    rw [handler_valid _ _ _ he hb]
    simp [pipeline, ghCreateRepo, ghGetSha, ghPutFile, ghEnablePages,
      ghLatestCommit, notify, notifyGo, h0, pubTrace, mkPutPayload,
      successResponse]

/-- A concrete failing provider outcome used by witnesses. -/
def hgW : ProviderResult := .httpError 500 "Internal Server Error" "boom"

/-- Witness for C1: with the concrete provider failure the chosen primary
document is the fallback, and the concrete otherwise-successful run ends
in the 200 success response. -/
theorem generation_failure_falls_back_witness :
    anthropicHTML hgW = .error "Anthropic 500 Internal Server Error: boom" ∧
    envReady envW ∧ validBody envW bodyW ∧
    chosenHTML hgW (bodyW.brief.getD "") =
      fallbackHTML (bodyW.brief.getD "") ∧
    handler envW ⟨hgW, .ok (some "md"), .ok (some "https://github.com/octo/t1"),
        .ok none, .ok, .ok none, .ok, .ok, .ok (some "abc"), fun _ => true⟩
        ⟨"POST", some bodyW⟩ =
      (successResponse envW bodyW (some "https://github.com/octo/t1")
        (some "abc"),
       pubTrace bodyW hgW (.ok (some "md")) none none ++ [.notifyAttempt 0]) := by
  have h := generation_failure_falls_back envW bodyW hgW
    "Anthropic 500 Internal Server Error: boom" (by decide) (by decide) rfl
  exact ⟨rfl, by decide, by decide, h.1,
    h.2.2.2.2.2 (.ok (some "md")) (some "https://github.com/octo/t1")
      none none (some "abc") (fun _ => true) rfl⟩

/-- C8: any provider response whose extracted text, after the defensive
stripping of fenced-code decoration, does not both start with
`<!DOCTYPE html>` and end with `</html>` is a generation failure: the
returned text is discarded — the document chosen for publishing is the
fallback, not the returned text — and the run proceeds using the
fallback. -/
theorem malformed_output_discarded (env : Env) (b : ReqBody)
    (t : Option String)
    (he : envReady env) (hb : validBody env b)
    (hbad : (jsStartsWith (stripFences (t.getD "")) "<!DOCTYPE html>"
      && jsEndsWith (stripFences (t.getD "")) "</html>") = false) :
    anthropicHTML (.ok t) =
      .error "Anthropic returned non-HTML or partial HTML" ∧
    chosenHTML (.ok t) (b.brief.getD "") = fallbackHTML (b.brief.getD "") ∧
    (∀ (rg : ProviderResult) (cu m1 m2 rs : Option String)
        (outcome : Nat → Bool), outcome 0 = true →
      handler env ⟨.ok t, rg, .ok cu, .ok m1, .ok, .ok m2, .ok, .ok, .ok rs,
          outcome⟩ ⟨"POST", some b⟩ =
        (successResponse env b cu rs,
         pubTrace b (.ok t) rg m1 m2 ++ [.notifyAttempt 0])) := by
  refine ⟨by simp [anthropicHTML, hbad], by simp [chosenHTML, anthropicHTML, hbad], ?_⟩
  intro rg cu m1 m2 rs outcome h0
  rw [handler_valid _ _ _ he hb]
  simp [pipeline, ghCreateRepo, ghGetSha, ghPutFile, ghEnablePages,
    ghLatestCommit, notify, notifyGo, h0, pubTrace, mkPutPayload,
    successResponse]

/-- Witness for C8: the provider text "hello" fails shape validation and
the chosen document is the fallback. -/
theorem malformed_output_discarded_witness :
    (jsStartsWith (stripFences "hello") "<!DOCTYPE html>"
      && jsEndsWith (stripFences "hello") "</html>") = false ∧
    anthropicHTML (.ok (some "hello")) =
      .error "Anthropic returned non-HTML or partial HTML" ∧
    chosenHTML (.ok (some "hello")) (bodyW.brief.getD "") =
      fallbackHTML (bodyW.brief.getD "") := by
  have h := malformed_output_discarded envW bodyW (some "hello")
    (by decide) (by decide) (by decide)
  exact ⟨by decide, h.1, h.2.1⟩

/-- C9 counterexample: a request that is complete except that round is
genuinely absent is terminally rejected with the 400 response before any
outbound call — round does not receive a default value and the run does
not proceed. -/
theorem round_absent_is_rejected_counterexample :
    handler envW wW ⟨"POST", some { bodyW with round := none }⟩ =
      (⟨400, .err "Missing required fields"⟩, []) := by
  decide

/-- C9 amended: absence of round is a terminal validation failure (the
400 client-error response, before any remote call), exactly like the
other required fields; only the checks and attachments lists receive
defaults when genuinely absent — their absence does not prevent the run
from proceeding. -/
theorem round_required_lists_optional (env : Env) (w : World) (b : ReqBody)
    (he : envReady env)
    (hs : jsTruthyStr b.secret = true) (hs2 : b.secret = env.STUDENT_SECRET)
    (hbE : jsTruthyStr b.email = true) (hbT : jsTruthyStr b.task = true)
    (hbN : jsTruthyStr b.nonce = true) (hbB : jsTruthyStr b.brief = true)
    (hbU : jsTruthyStr b.evaluation_url = true) :
    (b.round = none →
      handler env w ⟨"POST", some b⟩ =
        (⟨400, .err "Missing required fields"⟩, [])) ∧
    (b.checks = none → b.attachments = none → jsTruthyInt b.round = true →
      handler env w ⟨"POST", some b⟩ = pipeline env w b) := by
  obtain ⟨h1, h2, h3, h4⟩ := he
  constructor
  · intro hr
    simp [handler, h1, h2, h3, h4, hs, hs2, hbE, hbT, hbN, hbB, hbU, hr,
      jsTruthyInt]
  · intro _ _ hr
    exact handler_valid env w b ⟨h1, h2, h3, h4⟩
      ⟨hs, hs2, hbE, hbT, hr, hbN, hbB, hbU⟩

/-- Witness for C9: with round removed the concrete request is rejected
with 400 and no calls; with the optional lists absent (as in the concrete
body) and round present the run proceeds into the pipeline. -/
theorem round_required_lists_optional_witness :
    envReady envW ∧ bodyW.checks = none ∧ bodyW.attachments = none ∧
    handler envW wW ⟨"POST", some { bodyW with round := none }⟩ =
      (⟨400, .err "Missing required fields"⟩, []) ∧
    handler envW wW ⟨"POST", some bodyW⟩ = pipeline envW wW bodyW := by
  refine ⟨by decide, rfl, rfl, ?_, ?_⟩
  · exact (round_required_lists_optional envW wW { bodyW with round := none }
      (by decide) (by decide) (by decide) (by decide) (by decide) (by decide)
      (by decide) (by decide)).1 rfl
  · exact (round_required_lists_optional envW wW bodyW (by decide) (by decide)
      (by decide) (by decide) (by decide) (by decide) (by decide)
      (by decide)).2 rfl rfl rfl

/-- C10: a POST whose body is not parseable JSON never makes the handler
raise (the handler is a total function): the body is coerced to the
empty object, so with all configuration present the request is rejected
by the credential check with the 403 forbidden response and an empty
outbound-call trace — externally indistinguishable from a request whose
credential is simply missing. -/
theorem unparseable_body_rejected_as_forbidden (env : Env) (w : World)
    (he : envReady env) :
    handler env w ⟨"POST", none⟩ = (⟨403, .err "Invalid secret"⟩, []) ∧
    (∀ (b : ReqBody), b.secret = none →
      handler env w ⟨"POST", some b⟩ = handler env w ⟨"POST", none⟩) := by
  obtain ⟨h1, h2, h3, h4⟩ := he
  constructor
  · simp [handler, h1, h2, h3, h4, emptyBody]
  · intro b hbs
    simp [handler, h1, h2, h3, h4, emptyBody, hbs]

/-- Witness for C10: with the concrete environment and world, the
unparseable-body request gets exactly the 403 response with no outbound
calls, and matches the response to a secretless request. -/
theorem unparseable_body_rejected_as_forbidden_witness :
    envReady envW ∧
    handler envW wW ⟨"POST", none⟩ = (⟨403, .err "Invalid secret"⟩, []) ∧
    handler envW wW ⟨"POST", some { bodyW with secret := none }⟩ =
      handler envW wW ⟨"POST", none⟩ := by
  have h := unparseable_body_rejected_as_forbidden envW wW (by decide)
  exact ⟨by decide, h.1, h.2 { bodyW with secret := none } rfl⟩

end LlmDeploy
